import Mathlib

/-!
# Verification of the coderunner execution pipeline

A shallow embedding of the execution pipeline implemented by `process_eval`
in `src/main.py`, together with the language registry (`LANGUAGES`), the
run-history store (`RUN_LOGS` and the `logs` command's query), and the
workspace cleanup performed in the `finally` block.

Modelling conventions:
* Subprocess execution (`subprocess.run`) is an external effect; it is
  modelled by an oracle `Executor : String → ProcOutcome` mapping the
  shell command string to either a timeout (`subprocess.TimeoutExpired`)
  or a captured result (exit code, decoded stdout, decoded stderr).
* The fresh `uuid.uuid4().hex` identifiers are parameters (`srcStem`,
  `outId`): the code only uses them to build fresh path names.
* File-system state is the list of files in the shared temp directory;
  the `finally` block's loop (`os.remove` over `os.listdir(TEMP_DIR)`)
  removes every file, which `cleanup` models by returning the empty list.
  Argument parsing (lines 98-115) happens before the `try` statement, so
  an exception raised there (indexing past the end of the token list)
  escapes `process_eval` without entering the `finally` block; this path
  is the `Response.parseError` constructor, and it leaves both the
  history and the temp directory untouched.
* Python truthiness of optional strings (`if code:`, `if not language:`)
  is the `truthy` predicate: `None` and the empty string are falsy.
* `str.lower` is modelled for ASCII (`pyLower`), `str.strip` by trimming
  whitespace on both ends (`pyStrip`), and `str.format` with the keyword
  arguments `sources`/`output`/`flags` by a single left-to-right scan
  that substitutes `\x7bname\x7d` placeholders (`pyFormat`); substituted
  values are not re-scanned, matching Python's `format`.
-/

namespace CodeRunner

/-- The shared temp folder, `TEMP_DIR = "temp_files"` (main.py line 20). -/
def TEMP_DIR : String := "temp_files"

/-- The history capacity, `MAX_LOGS = 10` (main.py line 51). -/
def MAX_LOGS : Nat := 10

/-- One entry of the language registry: optional compile-command template,
run-command template, canonical file extension (main.py lines 24-48). -/
structure LangInfo where
  compile : Option String
  run : String
  extension : String
  deriving DecidableEq, Repr

/-- The language registry `LANGUAGES` (main.py lines 24-48), as an ordered
association list: Python dicts iterate in insertion order. -/
def LANGUAGES : List (String × LangInfo) :=
  [ ("c", ⟨some ("gcc {sources} -o {output} {flags}"), "./{output}", ".c"⟩),
    ("python", ⟨none, "python3 {sources}", ".py"⟩),
    ("rust", ⟨some ("rustc {sources} -o {output} {flags}"), "./{output}", ".rs"⟩),
    ("go", ⟨some ("go build -o {output} {sources} {flags}"), "./{output}", ".go"⟩),
    ("bash", ⟨none, "bash {sources}", ".sh"⟩) ]

/-- Registry lookup, `LANGUAGES.get(identifier)` (main.py lines 127, 159). -/
def lookup (id : String) : Option LangInfo :=
  (LANGUAGES.find? (fun kv => kv.1 == id)).map (fun kv => kv.2)

/-- The auto-detection loop (main.py lines 149-152): the first registry
entry whose extension equals the given one, if any. -/
def detect (ext : String) : Option String :=
  (LANGUAGES.find? (fun kv => kv.2.extension == ext)).map (fun kv => kv.1)

/-- Python truthiness of an optional string: `None` and `""` are falsy. -/
def truthy : Option String → Bool
  | none => false
  | some s => s != ""

/-- ASCII model of `str.lower` (used on the `-l` value, main.py line 101). -/
def lowerChar (c : Char) : Char :=
  if 'A' ≤ c ∧ c ≤ 'Z' then Char.ofNat (c.toNat + 32) else c

/-- ASCII model of `str.lower`. -/
def pyLower (s : String) : String :=
  (s.data.map lowerChar).asString

/-- Model of `token.startswith("-")` (main.py line 108). -/
def startsDash (t : String) : Bool :=
  match t.data with
  | [] => false
  | c :: _ => c = '-'

/-- Model of `str.strip()`: whitespace trimmed from both ends. -/
def pyStrip (s : String) : String :=
  (((s.data.dropWhile Char.isWhitespace).reverse.dropWhile
      Char.isWhitespace).reverse).asString

/-- Scanner underlying `pyFormat`. The first argument is `none` outside a
placeholder and `some acc` (accumulated name, reversed) inside one. An
unterminated placeholder contributes nothing (the registry's fixed
templates never produce one). -/
def fmtGo (sources output flags : String) :
    Option (List Char) → List Char → String
  | _, [] => ""
  | none, c :: rest =>
      if c = '\x7b' then fmtGo sources output flags (some []) rest
      else String.singleton c ++ fmtGo sources output flags none rest
  | some nm, c :: rest =>
      if c = '\x7d' then
        (if nm.reverse.asString == "sources" then sources
         else if nm.reverse.asString == "output" then output
         else if nm.reverse.asString == "flags" then flags
         else "") ++ fmtGo sources output flags none rest
      else fmtGo sources output flags (some (c :: nm)) rest

/-- Model of `template.format(sources=…, output=…, flags=…)` (main.py
lines 166, 175, 177): substitute the named placeholders in one pass. -/
def pyFormat (tmpl sources output flags : String) : String :=
  fmtGo sources output flags none tmpl.data

/-- The state accumulated by the argument-parsing loop (main.py
lines 92-95): `language`, `code`, `linked_files`, `compiler_flags`. -/
structure Parsed where
  language : Option String := none
  code : Option String := none
  linked : List String := []
  flags : String := ""
  deriving DecidableEq, Repr

/-- The parsing loop (main.py lines 98-115). The Boolean is true while
inside the `-ln` inner loop, which consumes tokens until one starts with
`-`. Returns `none` when a value-taking flag (`-l`, `-c`, `-f`) is the
last token: `args[i + 1]` then raises `IndexError`. -/
def parseGo (lnMode : Bool) (acc : Parsed) : List String → Option Parsed
  | [] => some acc
  | a :: rest =>
      if lnMode && !(startsDash a) then
        parseGo true { acc with linked := acc.linked ++ [a] } rest
      else if a == "-l" then
        match rest with
        | [] => none
        | v :: rest2 => parseGo false { acc with language := some (pyLower v) } rest2
      else if a == "-c" then
        match rest with
        | [] => none
        | v :: rest2 => parseGo false { acc with code := some v } rest2
      else if a == "-ln" then
        parseGo true acc rest
      else if a == "-f" then
        match rest with
        | [] => none
        | v :: rest2 => parseGo false { acc with flags := v } rest2
      else
        parseGo false acc rest

/-- Argument parsing, starting outside any `-ln` group. -/
def parseArgs (acc : Parsed) (args : List String) : Option Parsed :=
  parseGo false acc args

/-- Model of `os.path.splitext(name)[1]` for plain filenames (attachment
names, which contain no directory separator): the suffix starting at the
last `.`, except that a name whose characters before that dot are all
dots (e.g. `".bashrc"`, `"..c"`) has no extension. -/
def splitextExt (name : String) : String :=
  let r := name.data.reverse
  let post := r.takeWhile (fun d => d ≠ '.')
  match r.dropWhile (fun d => d ≠ '.') with
  | [] => ""
  | _ :: pre =>
    if pre.any (fun d => d ≠ '.') then "." ++ post.reverse.asString else ""

/-- The attachment allow-list filter (main.py line 140): an attachment is
saved when `linked_files` is empty or contains its filename. -/
def usedAttachments (p : Parsed) (atts : List String) : List String :=
  atts.filter (fun a => p.linked.isEmpty || p.linked.contains a)

/-- The typed resolver failures (main.py lines 124, 129, 155, 161). -/
inductive RFail where
  | missingLanguage
  | unsupportedLanguage (lang : Option String)
  | autoDetectFailed
  deriving DecidableEq, Repr

/-- A successfully resolved request: validated language key and registry
entry, the accumulated `sources` string (space-terminated paths), and the
files written into the temp directory so far. -/
structure Resolved where
  language : String
  info : LangInfo
  sources : String
  files : List String
  deriving DecidableEq, Repr

/-- The resolution steps of `process_eval` (main.py lines 122-162):
inline-code handling, attachment saving with the allow-list filter,
extension-based auto-detection, and final registry validation. -/
def resolve (p : Parsed) (atts : List String) (srcStem : String) :
    Except RFail Resolved :=
  let inlineStep : Except RFail (String × List String) :=
    if truthy p.code then
      match p.language with
      | none => .error .missingLanguage
      | some l =>
        if l == "" then .error .missingLanguage
        else
          match lookup l with
          | none => .error (.unsupportedLanguage (some l))
          | some info =>
            let sf := TEMP_DIR ++ "/" ++ srcStem ++ info.extension
            .ok (sf ++ " ", [sf])
    else .ok ("", [])
  match inlineStep with
  | .error e => .error e
  | .ok (srcs0, files0) =>
    let used := usedAttachments p atts
    let srcs := srcs0 ++ String.join (used.map (fun a => TEMP_DIR ++ "/" ++ a ++ " "))
    let files := files0 ++ used.map (fun a => TEMP_DIR ++ "/" ++ a)
    let langStep : Except RFail (Option String) :=
      match used, truthy p.language with
      | u :: _, false =>
        match detect (splitextExt u) with
        | some l => .ok (some l)
        | none => .error .autoDetectFailed
      | _, _ => .ok p.language
    match langStep with
    | .error e => .error e
    | .ok lang? =>
      match lang? with
      | none => .error (.unsupportedLanguage none)
      | some l =>
        match lookup l with
        | none => .error (.unsupportedLanguage (some l))
        | some info => .ok ⟨l, info, srcs, files⟩

/-- The captured result of one `subprocess.run` call: exit code and the
decoded stdout/stderr streams. -/
structure ProcResult where
  returncode : Int
  stdout : String
  stderr : String
  deriving DecidableEq, Repr

/-- Outcome of one subprocess invocation: a `subprocess.TimeoutExpired`
(the fixed `timeout=10` fired) or a captured result. -/
inductive ProcOutcome where
  | timeout
  | done (r : ProcResult)
  deriving DecidableEq, Repr

/-- The execution oracle: what the shell does with each command string. -/
def Executor := String → ProcOutcome

/-- What one invocation of `process_eval` replies with. `parseError` is
the `IndexError` raised by the parsing loop before the `try` statement:
it escapes `process_eval` uncaught (neither the typed resolver messages
nor the `except` handlers see it). `compileFailed` carries the full
message sent at line 171; `inlineOut` is a reply sent directly (line 203)
and `spilledOut` is the "Output too long, sending as file:" reply whose
text travels as the file `TEMP_DIR/output.txt` (lines 197-201). -/
inductive Response where
  | missingLanguage
  | unsupportedLanguage (lang : Option String)
  | autoDetectFailed
  | compileFailed (message : String)
  | timedOut
  | inlineOut (text : String)
  | spilledOut (text : String)
  | parseError
  deriving DecidableEq, Repr

/-- The completed-run rendering (main.py lines 182-189): an `Output`
block when stdout is non-empty, then an `Errors` block when stderr is
non-empty, or the literal `"No output."` when both are empty. -/
def renderCompleted (r : ProcResult) : String :=
  let t :=
    (if r.stdout == "" then "" else "**Output:**\n```" ++ r.stdout ++ "```\n")
      ++ (if r.stderr == "" then "" else "**Errors:**\n```" ++ r.stderr ++ "```")
  if t == "" then "No output." else t

/-- The size-based delivery routing (main.py lines 197-203): text longer
than 1800 characters is spilled to a file, otherwise sent inline. -/
def deliver (text : String) : Response :=
  if text.length > 1800 then .spilledOut text else .inlineOut text

/-- The history append on the compile-failed path (main.py line 172):
a plain append, with no capacity check. -/
def recordCompileFail (logs : List String) (entry : String) : List String :=
  logs ++ [entry]

/-- The history append on the completed-run path (main.py lines 192-194):
append, then `pop(0)` once the length exceeds `MAX_LOGS`. -/
def recordRunOk (logs : List String) (entry : String) : List String :=
  let l := logs ++ [entry]
  if l.length > MAX_LOGS then l.drop 1 else l

/-- Model of Python's `l[-n:]` for `0 < n`: the last `min n (length l)`
elements. -/
def pyLastN (n : Nat) (l : List String) : List String :=
  l.drop (l.length - n)

/-- The `logs` command's query (main.py line 86): the last `MAX_LOGS`
entries, most recent first (`reversed(RUN_LOGS[-MAX_LOGS:])`). -/
def recentLogs (logs : List String) : List String :=
  (pyLastN MAX_LOGS logs).reverse

/-- The `finally` block (main.py lines 210-216): every file enumerated in
the shared temp directory is removed (each entry the pipeline puts there
is a regular file, so no `os.remove` call fails). -/
def cleanup (_files : List String) : List String :=
  []

/-- The observable result of one `process_eval` invocation: the reply,
the history list, the temp-directory contents, and the shell commands
that were invoked, in order. -/
structure EvalResult where
  response : Response
  logs : List String
  tempFiles : List String
  invoked : List String
  deriving Repr

/-- The run phase (main.py lines 180-203): invoke the run command; a
timeout is reported as timed out, and any captured result — whatever its
exit code — is rendered, recorded in the history, and delivered. -/
def runPhase (language runCmd : String) (exe : Executor)
    (logs0 temp0 invoked0 : List String) : EvalResult :=
  match exe runCmd with
  | .timeout => ⟨.timedOut, logs0, cleanup temp0, invoked0 ++ [runCmd]⟩
  | .done rr =>
    let entry := language ++ " run OK (" ++ toString rr.stdout.utf8ByteSize
      ++ " bytes out)"
    ⟨deliver (renderCompleted rr), recordRunOk logs0 entry, cleanup temp0,
      invoked0 ++ [runCmd]⟩

/-- The whole pipeline `process_eval` (main.py lines 91-216): parse the
flag tokens, resolve sources and language, compile when the language has
a compile template, run, render, record, deliver — with the `finally`
cleanup on every path that entered the `try` block. `logs0`/`temp0` are
the history and temp-directory contents at entry; `srcStem`/`outId` are
the two fresh `uuid4().hex` values (inline-source file stem, line 132,
and output-binary name, line 118). -/
def process_eval (logs0 temp0 : List String) (args atts : List String)
    (exe : Executor) (srcStem outId : String) : EvalResult :=
  let outputName := TEMP_DIR ++ "/" ++ outId
  match parseArgs {} args with
  | none => ⟨.parseError, logs0, temp0, []⟩
  | some p =>
    match resolve p atts srcStem with
    | .error .missingLanguage => ⟨.missingLanguage, logs0, cleanup temp0, []⟩
    | .error (.unsupportedLanguage l) =>
        ⟨.unsupportedLanguage l, logs0, cleanup temp0, []⟩
    | .error .autoDetectFailed => ⟨.autoDetectFailed, logs0, cleanup temp0, []⟩
    | .ok res =>
      match res.info.compile with
      | some ctmpl =>
        let compileCmd := pyFormat ctmpl (pyStrip res.sources) outputName p.flags
        match exe compileCmd with
        | .timeout => ⟨.timedOut, logs0, cleanup temp0, [compileCmd]⟩
        | .done cr =>
          if cr.returncode ≠ 0 then
            ⟨.compileFailed ("**Compilation failed:**\n```" ++ cr.stderr ++ "```"),
              recordCompileFail logs0 (res.language ++ " compile failed"),
              cleanup temp0, [compileCmd]⟩
          else
            runPhase res.language (pyFormat res.info.run "" outputName "")
              exe logs0 temp0 [compileCmd]
      | none =>
        runPhase res.language (pyFormat res.info.run (pyStrip res.sources) "" "")
          exe logs0 temp0 []

/-! ## Helper lemmas -/

theorem string_append_ne_left {s t : String} (h : s ≠ "") : s ++ t ≠ "" := by
  intro he
  apply h
  apply String.ext
  have hd : s.data ++ t.data = ([] : List Char) := by
    simpa using congrArg String.data he
  rcases List.append_eq_nil.mp hd with ⟨h1, _⟩
  simpa using h1

theorem string_append_ne_right {s t : String} (h : t ≠ "") : s ++ t ≠ "" := by
  intro he
  apply h
  apply String.ext
  have hd : s.data ++ t.data = ([] : List Char) := by
    simpa using congrArg String.data he
  rcases List.append_eq_nil.mp hd with ⟨_, h2⟩
  simpa using h2

theorem renderBlocks_ne_empty (rr : ProcResult)
    (h : rr.stdout ≠ "" ∨ rr.stderr ≠ "") :
    (if rr.stdout = "" then "" else "**Output:**\n```" ++ rr.stdout ++ "```\n")
        ++ (if rr.stderr = "" then "" else "**Errors:**\n```" ++ rr.stderr ++ "```")
      ≠ "" := by
  by_cases hs : rr.stdout = ""
  · have he : rr.stderr ≠ "" := by
      rcases h with h | h
      · exact absurd hs h
      · exact h
    rw [if_pos hs, if_neg he]
    exact string_append_ne_right (string_append_ne_right (by decide))
  · rw [if_neg hs]
    exact string_append_ne_left (string_append_ne_left (string_append_ne_left (by decide)))

theorem lookup_isSome_of_detect {e l : String} (h : detect e = some l) :
    ∃ info, lookup l = some info := by
  unfold detect at h
  cases hf : LANGUAGES.find? (fun kv => kv.2.extension == e) with
  | none => rw [hf] at h; simp at h
  | some kv =>
    rw [hf] at h
    simp only [Option.map_some'] at h
    have h1 : kv.1 = l := Option.some.inj h
    have hmem := List.mem_of_find?_eq_some hf
    have hs : (LANGUAGES.find? (fun x => x.1 == l)).isSome :=
      List.find?_isSome.mpr ⟨kv, hmem, by simp [h1]⟩
    unfold lookup
    cases hg : LANGUAGES.find? (fun x => x.1 == l) with
    | none => rw [hg] at hs; simp at hs
    | some kv2 => exact ⟨kv2.2, rfl⟩

theorem deliver_shape (t : String) :
    deliver t = .inlineOut t ∨ deliver t = .spilledOut t := by
  unfold deliver
  split
  · exact Or.inr rfl
  · exact Or.inl rfl

/-! ## Claims -/

/-- C1. For every execution request whose language has a compile template,
if the compile step exits with a non-zero status, the run phase is never
invoked (the only command invoked is the compile command) and the result
is compile-failed, rendered as the message prefixed with the bold
"Compilation failed:" header and containing the compile stderr; the
history records a compile-failed entry. -/
theorem compile_fail_stops_pipeline
    (logs0 temp0 args atts : List String) (exe : Executor)
    (srcStem outId : String) (p : Parsed) (res : Resolved) (ctmpl : String)
    (cr : ProcResult)
    (hp : parseArgs {} args = some p)
    (hr : resolve p atts srcStem = .ok res)
    (hc : res.info.compile = some ctmpl)
    (hx : exe (pyFormat ctmpl (pyStrip res.sources) (TEMP_DIR ++ "/" ++ outId) p.flags)
        = .done cr)
    (hnz : cr.returncode ≠ 0) :
    process_eval logs0 temp0 args atts exe srcStem outId =
      ⟨.compileFailed ("**Compilation failed:**\n```" ++ cr.stderr ++ "```"),
        recordCompileFail logs0 (res.language ++ " compile failed"), [],
        [pyFormat ctmpl (pyStrip res.sources) (TEMP_DIR ++ "/" ++ outId) p.flags]⟩ := by
  simp only [process_eval, hp, hr, hc, hx]
  simp [hnz, cleanup, recordCompileFail]

/-- Witness for C1: a C request whose compiler exits 1 with stderr
"boom" replies with the compile-failure message and never invokes the
run command. -/
theorem compile_fail_stops_pipeline_witness :
    process_eval [] [] ["-l", "c", "-c", "x"] []
        (fun _ => .done ⟨1, "", "boom"⟩) "s" "o" =
      ⟨.compileFailed ("**Compilation failed:**\n```boom```"),
        ["c compile failed"], [], ["gcc temp_files/s.c -o temp_files/o "]⟩ := by
  have h := compile_fail_stops_pipeline [] [] ["-l", "c", "-c", "x"] []
    (fun _ => .done ⟨1, "", "boom"⟩) "s" "o"
    ⟨some ("c"), some ("x"), [], ""⟩
    ⟨"c", ⟨some ("gcc {sources} -o {output} {flags}"), "./{output}", ".c"⟩,
      "temp_files/s.c ", ["temp_files/s.c"]⟩
    "gcc {sources} -o {output} {flags}" ⟨1, "", "boom"⟩
    (by decide) rfl rfl rfl (by decide)
  rw [h]
  rfl

/-- C2 (counterexample). The compile-failed history append does not
evict: starting from a history already holding 10 entries, one
compile-failed invocation leaves 11 entries in the backing store,
refuting "every record call evicts the oldest entry once the length
exceeds the fixed capacity 10". -/
theorem compileFail_record_exceeds_capacity :
    (process_eval (List.replicate 10 "old") [] ["-l", "c", "-c", "x"] []
        (fun _ => .done ⟨1, "", "boom"⟩) "s" "o").logs.length = 11
      ∧ ¬ (process_eval (List.replicate 10 "old") [] ["-l", "c", "-c", "x"] []
          (fun _ => .done ⟨1, "", "boom"⟩) "s" "o").logs.length ≤ MAX_LOGS := by
  decide

/-- C2 (amended). The completed-run record appends and evicts the oldest
entry once the length exceeds the capacity 10 (so it preserves the
at-most-10 bound), while the compile-failed record appends without
evicting (so the backing store can exceed 10 entries); after 11
sequential completed-run records the recent-10 query returns entries 2
through 11 in most-recent-first order. -/
theorem history_record_behavior
    (logs : List String) (e e1 e2 e3 e4 e5 e6 e7 e8 e9 e10 e11 : String)
    (hlen : logs.length ≤ MAX_LOGS) :
    (recordRunOk logs e).length ≤ MAX_LOGS
      ∧ (recordCompileFail logs e).length = logs.length + 1
      ∧ recentLogs (recordRunOk (recordRunOk (recordRunOk (recordRunOk
          (recordRunOk (recordRunOk (recordRunOk (recordRunOk (recordRunOk
          (recordRunOk (recordRunOk [] e1) e2) e3) e4) e5) e6) e7) e8) e9)
          e10) e11)
        = [e11, e10, e9, e8, e7, e6, e5, e4, e3, e2] := by
  refine ⟨?_, ?_, ?_⟩
  · simp only [recordRunOk]
    split
    · simp only [List.length_drop, List.length_append, List.length_cons,
        List.length_nil]
      omega
    · rename_i hcond
      simp only [gt_iff_lt, not_lt, List.length_append, List.length_cons,
        List.length_nil] at hcond
      simp only [List.length_append, List.length_cons, List.length_nil]
      omega
  · simp [recordCompileFail]
  · simp [recordRunOk, recentLogs, pyLastN, MAX_LOGS]

/-- Witness for C2 (amended): concrete instance with a full history and
entries "1" through "11". -/
theorem history_record_behavior_witness :
    (recordRunOk (List.replicate 10 "old") "new").length ≤ MAX_LOGS
      ∧ (recordCompileFail (List.replicate 10 "old") "new").length
          = (List.replicate 10 "old" : List String).length + 1
      ∧ recentLogs (recordRunOk (recordRunOk (recordRunOk (recordRunOk
          (recordRunOk (recordRunOk (recordRunOk (recordRunOk (recordRunOk
          (recordRunOk (recordRunOk [] "1") "2") "3") "4") "5") "6") "7")
          "8") "9") "10") "11")
        = ["11", "10", "9", "8", "7", "6", "5", "4", "3", "2"] :=
  history_record_behavior (List.replicate 10 "old") "new"
    "1" "2" "3" "4" "5" "6" "7" "8" "9" "10" "11" (by decide)

/-- C3 (counterexample). Workspace cleanup does not run on every
terminating path: argument parsing happens before the try statement, so
a flag string ending in a bare value-taking flag raises out of
`process_eval` without entering the `finally` block, and a file present
in the shared temp area (for example one belonging to a concurrent
invocation) survives, refuting "on every terminating path (…, or
unexpected error) cleanup runs and deletes every file present". -/
theorem parse_error_skips_cleanup :
    (process_eval [] ["temp_files/stale"] ["-l"] []
        (fun _ => .done ⟨0, "", ""⟩) "s" "o").tempFiles = ["temp_files/stale"]
      ∧ (process_eval [] ["temp_files/stale"] ["-l"] []
          (fun _ => .done ⟨0, "", ""⟩) "s" "o").response = .parseError := by
  exact ⟨rfl, rfl⟩

/-- C3 (amended). On every terminating path that enters the try block —
that is, whenever argument parsing succeeds: successful completion,
compile failure, timeout, typed resolver failure, or the size-spill
path — the finally-block cleanup runs and deletes every file in the
shared temp area, leaving it holding no files; only a parsing exception
(a flag string whose scan indexes past the end of the token list)
bypasses the cleanup. -/
theorem cleanup_after_parse
    (logs0 temp0 args atts : List String) (exe : Executor)
    (srcStem outId : String) (p : Parsed)
    (hp : parseArgs {} args = some p) :
    (process_eval logs0 temp0 args atts exe srcStem outId).tempFiles = [] := by
  simp only [process_eval, hp, runPhase, cleanup]
  repeat first
  | rfl
  | split

/-- Witness for C3 (amended): a completed Python run with a stale file
initially present in the temp area ends with the temp area empty. -/
theorem cleanup_after_parse_witness :
    (process_eval [] ["temp_files/stale"] ["-l", "python", "-c", "x"] []
        (fun _ => .done ⟨0, "hi", ""⟩) "s" "o").tempFiles = [] :=
  cleanup_after_parse [] ["temp_files/stale"] ["-l", "python", "-c", "x"] []
    (fun _ => .done ⟨0, "hi", ""⟩) "s" "o"
    ⟨some ("python"), some ("x"), [], ""⟩ (by decide)

/-- C4. The completed-run delivery routing: rendered text strictly longer
than 1800 characters is spilled to a file and returned as an attachment
with the short "output too long" message, and text of at most 1800
characters is delivered inline; the run phase delivers exactly
`deliver (renderCompleted rr)` for the captured result `rr`. -/
theorem output_size_routing (t lang cmd : String) (exe : Executor)
    (logs0 temp0 inv0 : List String) (rr : ProcResult)
    (hx : exe cmd = .done rr) :
    (1800 < t.length → deliver t = .spilledOut t)
      ∧ (t.length ≤ 1800 → deliver t = .inlineOut t)
      ∧ (runPhase lang cmd exe logs0 temp0 inv0).response
          = deliver (renderCompleted rr) := by
  refine ⟨?_, ?_, ?_⟩
  · intro h
    unfold deliver
    rw [if_pos h]
  · intro h
    unfold deliver
    rw [if_neg (by omega)]
  · simp only [runPhase, hx]

set_option maxRecDepth 8000 in
/-- Witness for C4: the 1801/1800-character boundary, and a concrete run
delivering its rendered output. -/
theorem output_size_routing_witness :
    deliver (String.mk (List.replicate 1801 'a'))
        = .spilledOut (String.mk (List.replicate 1801 'a'))
      ∧ deliver (String.mk (List.replicate 1800 'a'))
        = .inlineOut (String.mk (List.replicate 1800 'a'))
      ∧ (runPhase "python" "python3 temp_files/s.py"
          (fun _ => .done ⟨0, "hi", ""⟩) [] [] []).response
          = deliver (renderCompleted ⟨0, "hi", ""⟩) := by
  have h1 := output_size_routing (String.mk (List.replicate 1801 'a')) "python"
    "python3 temp_files/s.py" (fun _ => .done ⟨0, "hi", ""⟩) [] [] []
    ⟨0, "hi", ""⟩ rfl
  have h2 := output_size_routing (String.mk (List.replicate 1800 'a')) "python"
    "python3 temp_files/s.py" (fun _ => .done ⟨0, "hi", ""⟩) [] [] []
    ⟨0, "hi", ""⟩ rfl
  exact ⟨h1.1 (by decide), h2.2.1 (by decide), h1.2.2⟩

/-- C5. Every execution reaching the run phase completes regardless of
the run command's own exit status: the reply is the delivered rendering
of the captured streams (independent of the exit code), never a timeout
or compile-failure reply; the rendering is an Output block for non-empty
stdout followed by an Errors block for non-empty stderr, or the literal
"No output." when both are empty. -/
theorem run_exit_reported_as_output (lang cmd : String) (exe : Executor)
    (logs0 temp0 inv0 : List String) (rr : ProcResult)
    (hx : exe cmd = .done rr) :
    (runPhase lang cmd exe logs0 temp0 inv0).response
        = deliver (renderCompleted rr)
      ∧ (∀ rc : Int, renderCompleted ⟨rc, rr.stdout, rr.stderr⟩ = renderCompleted rr)
      ∧ deliver (renderCompleted rr) ≠ .timedOut
      ∧ (∀ m, deliver (renderCompleted rr) ≠ .compileFailed m)
      ∧ (rr.stdout = "" → rr.stderr = "" → renderCompleted rr = "No output.")
      ∧ (rr.stdout ≠ "" ∨ rr.stderr ≠ "" → renderCompleted rr
          = (if rr.stdout = "" then "" else "**Output:**\n```" ++ rr.stdout ++ "```\n")
            ++ (if rr.stderr = "" then "" else "**Errors:**\n```" ++ rr.stderr ++ "```")) := by
  refine ⟨?_, ?_, ?_, ?_, ?_, ?_⟩
  · simp only [runPhase, hx]
  · intro rc
    rfl
  · unfold deliver
    split <;> simp
  · intro m
    unfold deliver
    split <;> simp
  · intro h1 h2
    have hz : ("" ++ "" : String) = "" := rfl
    simp [renderCompleted, h1, h2, hz]
  · intro h
    simp only [renderCompleted, beq_iff_eq]
    rw [if_neg (renderBlocks_ne_empty rr h)]

/-- Witness for C5: a run that exits 2 with only stderr is reported as an
Errors block, delivered as the run phase's reply. -/
theorem run_exit_reported_as_output_witness :
    (runPhase "python" "python3 temp_files/s.py"
        (fun _ => .done ⟨2, "", "err"⟩) [] [] []).response
        = deliver (renderCompleted ⟨2, "", "err"⟩)
      ∧ renderCompleted ⟨2, "", "err"⟩ = "**Errors:**\n```err```" := by
  have h := run_exit_reported_as_output "python" "python3 temp_files/s.py"
    (fun _ => .done ⟨2, "", "err"⟩) [] [] [] ⟨2, "", "err"⟩ rfl
  refine ⟨h.1, ?_⟩
  have hb := h.2.2.2.2.2 (by right; decide)
  rw [hb]
  decide

/-- C6 (counterexample). Supplying `-c` with the empty string does not
fail with MissingLanguage: Python's `if code:` treats the empty string as
absent, so the inline-code language check is skipped and the invocation
falls through to the registry validation, replying UnsupportedLanguage
for the unset language (while still never invoking the engine). -/
theorem empty_inline_code_skips_language_check :
    (process_eval [] [] ["-c", ""] [] (fun _ => .done ⟨0, "", ""⟩) "s" "o").response
        = .unsupportedLanguage none
      ∧ (process_eval [] [] ["-c", ""] [] (fun _ => .done ⟨0, "", ""⟩) "s" "o").response
        ≠ .missingLanguage
      ∧ (process_eval [] [] ["-c", ""] [] (fun _ => .done ⟨0, "", ""⟩) "s" "o").invoked
        = [] := by
  exact ⟨rfl, by decide, rfl⟩

/-- C6 (amended). For every input that supplies non-empty inline code via
`-c` but no (truthy) language via `-l`, resolution fails with
MissingLanguage and the execution engine is never invoked — no shell
command runs, the history is untouched. (Supplying `-c ""` is treated as
absent inline code and instead reaches the UnsupportedLanguage check.) -/
theorem nonempty_inline_code_requires_language
    (logs0 temp0 args atts : List String) (exe : Executor)
    (srcStem outId : String) (p : Parsed) (c : String)
    (hp : parseArgs {} args = some p)
    (hc : p.code = some c) (hne : c ≠ "")
    (hl : truthy p.language = false) :
    process_eval logs0 temp0 args atts exe srcStem outId
      = ⟨.missingLanguage, logs0, [], []⟩ := by
  have htc : truthy p.code = true := by rw [hc]; simp [truthy, hne]
  have hres : resolve p atts srcStem = .error .missingLanguage := by
    simp only [resolve, htc, if_true]
    cases hpl : p.language with
    | none => simp
    | some l =>
      have hl0 : l = "" := by
        rw [hpl] at hl
        simpa [truthy] using hl
      simp [hl0]
  simp only [process_eval, hp, hres, cleanup]

/-- Witness for C6 (amended): `-c "x"` with no `-l` replies
MissingLanguage and invokes nothing. -/
theorem nonempty_inline_code_requires_language_witness :
    process_eval [] [] ["-c", "x"] [] (fun _ => .done ⟨0, "", ""⟩) "s" "o"
      = ⟨.missingLanguage, [], [], []⟩ :=
  nonempty_inline_code_requires_language [] [] ["-c", "x"] []
    (fun _ => .done ⟨0, "", ""⟩) "s" "o" ⟨none, some ("x"), [], ""⟩ "x"
    (by decide) rfl (by decide) rfl

/-- C7. An attachment is included in the resolved source set if and only
if the allow-list is empty or the attachment's filename appears in the
allow-list; included attachments keep their original attachment order
(the used list is a sublist of the attachment list); and concretely,
`-ln a.c` with attachments a.c, b.c resolves to the single source
`temp_files/a.c`. -/
theorem attachment_allowlist (p : Parsed) (atts : List String) :
    (∀ a, a ∈ usedAttachments p atts
        ↔ a ∈ atts ∧ (p.linked = [] ∨ a ∈ p.linked))
      ∧ (usedAttachments p atts).Sublist atts
      ∧ (∃ pc, parseArgs {} ["-l", "c", "-ln", "a.c"] = some pc
          ∧ ∃ res, resolve pc ["a.c", "b.c"] "s" = .ok res
            ∧ res.sources = "temp_files/a.c ") := by
  refine ⟨?_, List.filter_sublist _, ?_⟩
  · intro a
    simp [usedAttachments, List.mem_filter, List.isEmpty_iff]
  · exact ⟨⟨some ("c"), none, ["a.c"], ""⟩, rfl, _, rfl, rfl⟩

/-- Witness for C7: the allow-list ["a.c"] selects exactly a.c out of
the attachments a.c, b.c. -/
theorem attachment_allowlist_witness :
    usedAttachments ⟨some ("c"), none, ["a.c"], ""⟩ ["a.c", "b.c"] = ["a.c"]
      ∧ ("b.c" ∈ usedAttachments ⟨some ("c"), none, ["a.c"], ""⟩ ["a.c", "b.c"]
          ↔ "b.c" ∈ ["a.c", "b.c"]
            ∧ ((["a.c"] : List String) = [] ∨ "b.c" ∈ (["a.c"] : List String))) :=
  ⟨rfl, (attachment_allowlist ⟨some ("c"), none, ["a.c"], ""⟩ ["a.c", "b.c"]).1 "b.c"⟩

/-- C8. When no language was set and at least one attachment was
included, the language is derived from the first included attachment's
extension by exact match against the registry — failing with
AutoDetectFailed when no entry matches, and resolving to exactly the
detected registry key otherwise — and for every language in the
registry, detecting its own canonical extension returns exactly that
language. (Reaching this step requires that no truthy inline code was
supplied, since inline code without a language fails earlier.) -/
theorem language_autodetect (p : Parsed) (atts : List String)
    (srcStem u : String) (rest : List String)
    (hcode : truthy p.code = false)
    (hlang : truthy p.language = false)
    (hused : usedAttachments p atts = u :: rest) :
    (∀ kv ∈ LANGUAGES, detect kv.2.extension = some kv.1)
      ∧ (detect (splitextExt u) = none →
          resolve p atts srcStem = .error .autoDetectFailed)
      ∧ (∀ l, detect (splitextExt u) = some l →
          ∃ res, resolve p atts srcStem = .ok res ∧ res.language = l) := by
  refine ⟨by decide, ?_, ?_⟩
  · intro hd
    simp only [resolve, hcode, Bool.false_eq_true, if_false, hused, hlang, hd]
  · intro l hd
    obtain ⟨info, hinfo⟩ := lookup_isSome_of_detect hd
    simp only [resolve, hcode, Bool.false_eq_true, if_false, hused, hlang, hd,
      hinfo]
    exact ⟨_, rfl, rfl⟩

/-- Witness for C8: a single attachment main.c auto-detects the language
c, and every registry extension detects its own language. -/
theorem language_autodetect_witness :
    (∀ kv ∈ LANGUAGES, detect kv.2.extension = some kv.1)
      ∧ ∃ res, resolve {} ["main.c"] "s" = .ok res ∧ res.language = "c" := by
  have h := language_autodetect {} ["main.c"] "s" "main.c" []
    (by decide) (by decide) (by decide)
  exact ⟨h.1, h.2.2 "c" (by decide)⟩

/-- Frame behaviour of the run phase for C9: its reply is timed-out or a
completed delivery, and it only ever appends via the completed-run
record. -/
theorem history_frame_runPhase (lang cmd : String) (exe : Executor)
    (logs0 temp0 inv0 : List String) :
    ((runPhase lang cmd exe logs0 temp0 inv0).response = .timedOut →
        (runPhase lang cmd exe logs0 temp0 inv0).logs = logs0)
      ∧ ((runPhase lang cmd exe logs0 temp0 inv0).response = .parseError →
          (runPhase lang cmd exe logs0 temp0 inv0).logs = logs0)
      ∧ ((runPhase lang cmd exe logs0 temp0 inv0).logs ≠ logs0 →
          (∃ m, (runPhase lang cmd exe logs0 temp0 inv0).response
              = .compileFailed m)
            ∨ ∃ t, (runPhase lang cmd exe logs0 temp0 inv0).response
                = .inlineOut t
              ∨ (runPhase lang cmd exe logs0 temp0 inv0).response
                = .spilledOut t) := by
  unfold runPhase
  cases hx : exe cmd with
  | timeout => simp
  | done rr =>
    rcases deliver_shape (renderCompleted rr) with h | h <;>
      refine ⟨by simp [h], by simp [h], fun _ => Or.inr ⟨renderCompleted rr, ?_⟩⟩
    · exact Or.inl h
    · exact Or.inr h

/-- C9. An invocation that ends in a timeout, or in the uncaught parsing
exception (the only internal error the model can raise), leaves the run
history unchanged; the history changes only on the compile-failed path
and on the completed-run path. -/
theorem history_frame (logs0 temp0 args atts : List String) (exe : Executor)
    (srcStem outId : String) (out : EvalResult)
    (hout : out = process_eval logs0 temp0 args atts exe srcStem outId) :
    (out.response = .timedOut → out.logs = logs0)
      ∧ (out.response = .parseError → out.logs = logs0)
      ∧ (out.logs ≠ logs0 →
          (∃ m, out.response = .compileFailed m)
            ∨ ∃ t, out.response = .inlineOut t ∨ out.response = .spilledOut t) := by
  subst hout
  cases hparse : parseArgs {} args with
  | none => simp [process_eval, hparse]
  | some p =>
    cases hres : resolve p atts srcStem with
    | error e => cases e <;> simp [process_eval, hparse, hres]
    | ok res =>
      cases hcomp : res.info.compile with
      | none =>
        simp only [process_eval, hparse, hres, hcomp]
        exact history_frame_runPhase _ _ _ _ _ _
      | some ctmpl =>
        simp only [process_eval, hparse, hres, hcomp]
        cases hx : exe (pyFormat ctmpl (pyStrip res.sources)
            (TEMP_DIR ++ "/" ++ outId) p.flags) with
        | timeout => simp
        | done cr =>
          dsimp only
          by_cases hz : cr.returncode = 0
          · rw [if_neg (by simp [hz])]
            exact history_frame_runPhase _ _ _ _ _ _
          · rw [if_pos hz]
            exact ⟨by simp, by simp, fun _ => Or.inl ⟨_, rfl⟩⟩

/-- Witness for C9: a Python run that times out leaves the pre-existing
history entry list unchanged. -/
theorem history_frame_witness :
    (process_eval ["old"] [] ["-l", "python", "-c", "x"] []
        (fun _ => .timeout) "s" "o").logs = ["old"] :=
  (history_frame ["old"] [] ["-l", "python", "-c", "x"] [] (fun _ => .timeout)
    "s" "o" _ rfl).1 (by decide)

/-- C10 (counterexample). A flag string whose final token is `-l` does
not always raise: in `-c -l` the final `-l` is consumed as the value of
`-c`, parsing succeeds, and the invocation fails with the typed
MissingLanguage resolver failure instead of raising. -/
theorem trailing_value_consumed_no_raise :
    parseArgs {} ["-c", "-l"] = some ⟨none, some ("-l"), [], ""⟩
      ∧ (process_eval [] [] ["-c", "-l"] [] (fun _ => .done ⟨0, "", ""⟩)
          "s" "o").response = .missingLanguage
      ∧ (process_eval [] [] ["-c", "-l"] [] (fun _ => .done ⟨0, "", ""⟩)
          "s" "o").response ≠ .parseError := by
  exact ⟨rfl, rfl, by decide⟩

/-- C10 (amended). Whenever the left-to-right scan reaches the final
token in flag position (it was not consumed as the value of an earlier
value-taking flag) and that token is `-l`, `-c`, or `-f`, argument
parsing indexes past the end of the token list and raises; the exception
escapes before the try block, so the invocation surfaces as an uncaught
internal error — never as a typed resolver failure — with no command
invoked and no cleanup. -/
theorem trailing_flag_raises (acc : Parsed) (lnMode : Bool) (t : String)
    (logs0 temp0 args atts : List String) (exe : Executor)
    (srcStem outId : String)
    (ht : t = "-l" ∨ t = "-c" ∨ t = "-f")
    (hargs : parseArgs {} args = none) :
    parseGo lnMode acc [t] = none
      ∧ process_eval logs0 temp0 args atts exe srcStem outId
        = ⟨.parseError, logs0, temp0, []⟩ := by
  constructor
  · rcases ht with h | h | h <;> subst h <;>
      cases lnMode <;> simp [parseGo, startsDash]
  · simp only [process_eval, hargs]

/-- Witness for C10 (amended): the flag string consisting of the single
token `-l` raises during parsing and surfaces as the uncaught error. -/
theorem trailing_flag_raises_witness :
    parseGo false {} ["-l"] = none
      ∧ process_eval [] [] ["-l"] [] (fun _ => .done ⟨0, "", ""⟩) "s" "o"
        = ⟨.parseError, [], [], []⟩ :=
  trailing_flag_raises {} false "-l" [] [] ["-l"] []
    (fun _ => .done ⟨0, "", ""⟩) "s" "o" (Or.inl rfl) rfl

end CodeRunner
